import Mathlib

/-!
Shallow embedding of the response-normalization core of the
ura-lightning-detection repository: `src/lightning_service.py` (NEA lightning
response parsing and coordinate extraction) and `src/singapore_geocoder.py`
(OneMap geocoding, postal-code validation and batch driving).

Modelling conventions:
- Python dictionaries coming from JSON are structures with `Option`-valued
  fields; `none` stands for an absent key (and, where the modelled code cannot
  distinguish the two, for JSON null).
- Coordinate numbers are rationals `ℚ`: the repository only parses decimal
  literals, stores them and compares them against rational bounds, so exact
  rational arithmetic is a faithful stand-in for Python floats here.
- The two HTTP endpoints are oracle parameters (`GeoNet`); a network failure,
  a non-200 status, a missing result and a malformed body all surface as
  `none`, exactly as the adapters collapse them.
- Wall-clock timestamps (`datetime.now()`) and the `time.sleep` rate-limit
  delay have no influence on any returned data and are omitted.
-/

namespace UraLightning

/-- Model of a JSON scalar that can occupy a latitude/longitude slot.
`jother` stands for any JSON value that is neither null, bool, number nor
string (arrays, objects); Python `float(...)` raises `TypeError` on those. -/
inductive JVal where
  | jnull
  | jbool (b : Bool)
  | jnum (q : ℚ)
  | jstr (s : String)
  | jother
  deriving DecidableEq, Repr

/-- Numeric value of a list of ASCII digit characters, most significant first. -/
def digitsVal (l : List Char) : Nat :=
  l.foldl (fun n c => n * 10 + (c.toNat - 48)) 0

/-- Model of Python `str.strip()`: drop whitespace from both ends.
(`String.trim` itself is avoided only because its well-founded recursion does
not reduce inside the kernel; this list-level version is the same function on
the character data.) -/
def pyStrip (s : String) : String :=
  String.mk (((s.data.dropWhile Char.isWhitespace).reverse.dropWhile
    Char.isWhitespace).reverse)

/-- Exponent part of a Python float literal: optional sign then at least one
digit; a true flag means a negative exponent. -/
def parseExp (mant : ℚ) (t : List Char) : Option ℚ :=
  let (eneg, t1) : Bool × List Char :=
    match t with
    | '+' :: r => (false, r)
    | '-' :: r => (true, r)
    | _ => (false, t)
  if t1.isEmpty || !t1.all Char.isDigit then none
  else some (if eneg then mant / 10 ^ digitsVal t1 else mant * 10 ^ digitsVal t1)

/-- Model of Python `float(s)` on a string: surrounding whitespace, an
optional sign, integer and fractional digit groups (at least one digit in
total) and an optional decimal exponent.  Non-finite literals ("inf", "nan")
and underscore digit separators are not representable in the rational model
and are treated as parse failures; data in this repository never uses them. -/
def parseFloat? (s : String) : Option ℚ :=
  let l := (pyStrip s).data
  let (sgn, l1) : ℚ × List Char :=
    match l with
    | '+' :: t => (1, t)
    | '-' :: t => (-1, t)
    | _ => (1, l)
  let ip := l1.takeWhile Char.isDigit
  let r1 := l1.dropWhile Char.isDigit
  let (fp, r2) : List Char × List Char :=
    match r1 with
    | '.' :: t => (t.takeWhile Char.isDigit, t.dropWhile Char.isDigit)
    | _ => ([], r1)
  if ip.isEmpty && fp.isEmpty then none
  else
    let mant : ℚ := sgn * ((digitsVal ip : ℚ) + (digitsVal fp : ℚ) / 10 ^ fp.length)
    match r2 with
    | [] => some mant
    | 'e' :: t => parseExp mant t
    | 'E' :: t => parseExp mant t
    | _ => none

/-- Model of Python `float(v)` on a JSON value: numbers and bools coerce,
strings go through the literal parser, null and structured values raise
`TypeError` (modelled as `none`). -/
def pyFloat : JVal → Option ℚ
  | .jnull => none
  | .jbool b => some (if b then 1 else 0)
  | .jnum q => some q
  | .jstr s => parseFloat? s
  | .jother => none

/-- Python `s1 < s2` on strings: lexicographic comparison of code points,
which is the linear order on the underlying character lists. -/
def pyStrLt (a b : String) : Bool := decide (a.data < b.data)

/-- Python `min(l)` over a list of strings, `none` on the empty list (the
code leaves the field `None` when no timestamp was collected).  Mirrors the
left-to-right scan keeping the current smallest element. -/
def pyStrMin (l : List String) : Option String :=
  match l with
  | [] => none
  | x :: xs => some (xs.foldl (fun best s => if pyStrLt s best then s else best) x)

/-- Python `max(l)` over a list of strings, `none` on the empty list. -/
def pyStrMax (l : List String) : Option String :=
  match l with
  | [] => none
  | x :: xs => some (xs.foldl (fun best s => if pyStrLt best s then s else best) x)

/-! Raw (wire-shaped) lightning data: the `RawObservationBatch` of the spec. -/

/-- Nested `location` object of one reading. -/
structure RawLocation where
  latitude : Option JVal
  longitude : Option JVal
  deriving DecidableEq, Repr

/-- One raw reading entry inside a time-period record. -/
structure RawReading where
  location : Option RawLocation
  type : Option String
  text : Option String
  datetime : Option String
  deriving DecidableEq, Repr

/-- The `item` sub-object of a time-period record. -/
structure RawItem where
  isStationData : Option Bool
  type : Option String
  readings : Option (List RawReading)
  deriving DecidableEq, Repr

/-- One raw time-period record. -/
structure RawRecord where
  datetime : Option String
  updatedTimestamp : Option String
  item : Option RawItem
  deriving DecidableEq, Repr

/-- The `data` section of the API response. -/
structure RawData where
  paginationToken : Option String
  records : Option (List RawRecord)
  deriving DecidableEq, Repr

/-- The whole API response (`RawObservationBatch`). -/
structure RawBatch where
  code : Option Int
  errorMsg : Option String
  data : Option RawData
  deriving DecidableEq, Repr

/-! Normalized output of `parse_lightning_response`. -/

/-- One normalized reading (`StrikeRecord`). -/
structure ReadingData where
  latitude : ℚ
  longitude : ℚ
  type : String
  description : String
  datetime : Option String
  record_datetime : Option String
  deriving DecidableEq, Repr

/-- One normalized time-period record. -/
structure RecordData where
  datetime : Option String
  updated_timestamp : Option String
  is_station_data : Bool
  observation_type : String
  readings_count : Nat
  readings : List ReadingData
  deriving DecidableEq, Repr

/-- The parsed summary (`parsed_data` dictionary); the wall-clock `timestamp`
field is omitted from the model. -/
structure ParsedData where
  api_status : Int
  error_message : String
  pagination_token : Option String
  records : List RecordData
  total_strikes : Nat
  records_with_lightning : Nat
  time_range_earliest : Option String
  time_range_latest : Option String
  deriving DecidableEq, Repr

/-- Model of record.get("item", dict()).get("readings", list()): the raw readings list of a
period, defaulting to empty at both levels. -/
def rawReadings (record : RawRecord) : List RawReading :=
  (record.item.getD ⟨none, none, none⟩).readings.getD []

/-- Model of reading.get("location", dict()). -/
def readingLocation (reading : RawReading) : RawLocation :=
  reading.location.getD ⟨none, none⟩

/-- Result of `float` applied to location.get("latitude", 0), `none` when the coercion
raises `ValueError` or `TypeError`. -/
def readingLat? (reading : RawReading) : Option ℚ :=
  pyFloat ((readingLocation reading).latitude.getD (JVal.jnum 0))

/-- Result of `float` applied to location.get("longitude", 0). -/
def readingLon? (reading : RawReading) : Option ℚ :=
  pyFloat ((readingLocation reading).longitude.getD (JVal.jnum 0))

/-- Whether both coordinate coercions of a reading succeed, i.e. the `try`
block of the reading loop completes without hitting `continue`. -/
def coercesOk (reading : RawReading) : Bool :=
  (readingLat? reading).isSome && (readingLon? reading).isSome

/-- Body of the `for reading in readings` loop of `parse_lightning_response`
(src/lightning_service.py lines 165-186): both coordinates are coerced inside
one `try`; a `ValueError`/`TypeError` skips the reading (`continue`),
modelled as `none`. -/
def parseReading (record_datetime : Option String) (reading : RawReading) :
    Option ReadingData :=
  match readingLat? reading, readingLon? reading with
  | some latitude, some longitude =>
      some { latitude := latitude, longitude := longitude,
             type := reading.type.getD "Unknown",
             description := reading.text.getD "Unknown",
             datetime := reading.datetime,
             record_datetime := record_datetime }
  | _, _ => none

/-- The `record_data` dictionary built for one time-period record; its
`readings` list collects exactly the readings kept by the inner loop. -/
def recordDataOf (record : RawRecord) : RecordData :=
  let item := record.item.getD ⟨none, none, none⟩
  let readings := item.readings.getD []
  { datetime := record.datetime,
    updated_timestamp := record.updatedTimestamp,
    is_station_data := item.isStationData.getD false,
    observation_type := item.type.getD "unknown",
    readings_count := readings.length,
    readings := readings.filterMap (parseReading record.datetime) }

/-- Contribution of one record to `all_datetimes`: the guard
`if record_datetime:` is Python truthiness, skipping both `None` and the
empty string. -/
def dtList (record : RawRecord) : List String :=
  match record.datetime with
  | some s => if s = "" then [] else [s]
  | none => []

/-- Mutable state threaded through the `for record in records` loop. -/
structure LightState where
  records : List RecordData
  total_strikes : Nat
  records_with_lightning : Nat
  all_datetimes : List String
  deriving DecidableEq, Repr

/-- One iteration of the record loop (src/lightning_service.py lines
137-190).  Note that `records_with_lightning` is incremented whenever the RAW
readings list is non-empty (line 161-162), before any coordinate coercion is
attempted, while `total_strikes` grows once per reading actually kept. -/
def processRecord (st : LightState) (record : RawRecord) : LightState :=
  let rd := recordDataOf record
  { records := st.records ++ [rd],
    total_strikes := st.total_strikes + rd.readings.length,
    records_with_lightning :=
      st.records_with_lightning + (if (rawReadings record).isEmpty then 0 else 1),
    all_datetimes := st.all_datetimes ++ dtList record }

/-- Model of api_response.get("data", dict()).get("records", list()). -/
def rawRecords (b : RawBatch) : List RawRecord :=
  (b.data.getD ⟨none, none⟩).records.getD []

/-- Model of `parse_lightning_response` (src/lightning_service.py lines
96-202).  An absent/falsy response and a response whose `code` is missing or
non-zero both return `None`; otherwise the record loop runs and the time
range is filled with `min`/`max` of the collected datetimes when any exist
(`pyStrMin`/`pyStrMax` return `none` exactly on the empty list, matching the
`if all_datetimes:` guard). -/
def parse_lightning_response (b : RawBatch) : Option ParsedData :=
  if b.code = some 0 then
    let st := (rawRecords b).foldl processRecord ⟨[], 0, 0, []⟩
    some { api_status := 0,
           error_message := b.errorMsg.getD "",
           pagination_token := (b.data.getD ⟨none, none⟩).paginationToken,
           records := st.records,
           total_strikes := st.total_strikes,
           records_with_lightning := st.records_with_lightning,
           time_range_earliest := pyStrMin st.all_datetimes,
           time_range_latest := pyStrMax st.all_datetimes }
  else none

/-- One entry of the coordinates list built by `extract_coordinates`. -/
structure CoordData where
  latitude : ℚ
  longitude : ℚ
  type : String
  description : String
  datetime : Option String
  record_datetime : Option String
  deriving DecidableEq, Repr

/-- An axis-aligned lat/lon rectangle with a center point. -/
structure GeoBounds where
  lat_min : ℚ
  lat_max : ℚ
  lon_min : ℚ
  lon_max : ℚ
  center_lat : ℚ
  center_lon : ℚ
  deriving DecidableEq, Repr

/-- The loose display box of the lightning service (`self.singapore_bounds`). -/
def singapore_bounds : GeoBounds :=
  { lat_min := 0.95, lat_max := 1.75, lon_min := 103.27, lon_max := 104.52,
    center_lat := 1.3521, center_lon := 103.8198 }

/-- Inclusive bounding-box membership, as written at both use sites
(`min <= x <= max` on both axes). -/
def boundsContains (bounds : GeoBounds) (lat lon : ℚ) : Bool :=
  bounds.lat_min ≤ lat && lat ≤ bounds.lat_max &&
  (bounds.lon_min ≤ lon && lon ≤ bounds.lon_max)

/-- The `coord_data` dictionary built for one reading, with
record.get("datetime", "Unknown") (the key is always present
in a parsed record, so the value — possibly `None` — is returned). -/
def coordOf (record_time : Option String) (reading : ReadingData) : CoordData :=
  { latitude := reading.latitude, longitude := reading.longitude,
    type := reading.type, description := reading.description,
    datetime := reading.datetime, record_datetime := record_time }

/-- Model of `extract_coordinates` (src/lightning_service.py lines 204-249):
nested loops append one coordinate dictionary per reading; the Singapore
bounds tally (`valid_count`, lines 234-247) only feeds log output and is kept
here as an unused binding; the function returns the list unchanged. -/
def extract_coordinates (p : ParsedData) : List CoordData :=
  if p.records.isEmpty then []
  else
    let coordinates_list :=
      p.records.foldl
        (fun acc record => acc ++ record.readings.map (coordOf record.datetime)) []
    let _valid_count :=
      coordinates_list.countP
        (fun c => boundsContains singapore_bounds c.latitude c.longitude)
    coordinates_list

/-! Geocoder embedding (`src/singapore_geocoder.py`). -/

/-- One OneMap search result (or static table entry): the fields the code
reads.  Coordinates come through as JSON values, normally strings. -/
structure GeoRaw where
  ADDRESS : Option String
  BUILDING : Option String
  ROAD : Option String
  LATITUDE : Option JVal
  LONGITUDE : Option JVal
  deriving DecidableEq, Repr

/-- The static `SAMPLE_GEOCODING_DATA` table (lines 57-93). -/
def SAMPLE_GEOCODING_DATA : List (String × GeoRaw) :=
  [("238874",
    { ADDRESS := some "ION Orchard, 2 Orchard Turn, Singapore 238874",
      BUILDING := some "ION Orchard", ROAD := some "Orchard Turn",
      LATITUDE := some (JVal.jstr "1.304167"),
      LONGITUDE := some (JVal.jstr "103.833611") }),
   ("018989",
    { ADDRESS := some "Marina Bay Sands, 10 Bayfront Avenue, Singapore 018989",
      BUILDING := some "Marina Bay Sands", ROAD := some "Bayfront Avenue",
      LATITUDE := some (JVal.jstr "1.283611"),
      LONGITUDE := some (JVal.jstr "103.859722") }),
   ("018956",
    { ADDRESS := some "Gardens by the Bay, 18 Marina Gardens Drive, Singapore 018956",
      BUILDING := some "Gardens by the Bay", ROAD := some "Marina Gardens Drive",
      LATITUDE := some (JVal.jstr "1.281528"),
      LONGITUDE := some (JVal.jstr "103.865556") }),
   ("079903",
    { ADDRESS := some "Singapore Zoo, 80 Mandai Lake Road, Singapore 079903",
      BUILDING := some "Singapore Zoo", ROAD := some "Mandai Lake Road",
      LATITUDE := some (JVal.jstr "1.403611"),
      LONGITUDE := some (JVal.jstr "103.791944") }),
   ("099253",
    { ADDRESS := some "Sentosa, 39 Artillery Avenue, Singapore 099253",
      BUILDING := some "Sentosa", ROAD := some "Artillery Avenue",
      LATITUDE := some (JVal.jstr "1.246389"),
      LONGITUDE := some (JVal.jstr "103.822778") })]

/-- The tight administrative box (`SINGAPORE_BOUNDS`, lines 44-51). -/
def SINGAPORE_BOUNDS : GeoBounds :=
  { lat_min := 1.16, lat_max := 1.48, lon_min := 103.59, lon_max := 104.04,
    center_lat := 1.3521, center_lon := 103.8198 }

/-- Result of stripping every non-ASCII-digit character, the effect of
the re.sub call deleting every non-digit. -/
def digitsOf (s : String) : String := String.mk (s.data.filter Char.isDigit)

/-- `bool(POSTAL_CODE_REGEX.match(c))` for the pattern `^\d{6}$`. -/
def regexSixDigits (c : String) : Bool :=
  c.length == 6 && c.data.all Char.isDigit

/-- Model of `validate_postal_code` (lines 112-129): falsy input fails, then
the stripped-and-digit-filtered string must match the six-digit regex.  A
non-string argument (also rejected by the `isinstance` check) is not
representable here; the non-string dispatcher path is modelled in
`geocode` directly. -/
def validate_postal_code (postal_code : String) : Bool :=
  if postal_code = "" then false
  else regexSixDigits (digitsOf (pyStrip postal_code))

/-- Model of `clean_postal_code` (lines 131-151): `cleaned.isdigit()` is true
exactly for a non-empty all-digit string. -/
def clean_postal_code (postal_code : String) : Option String :=
  if postal_code = "" then none
  else
    let cleaned := digitsOf (pyStrip postal_code)
    if cleaned.length == 6 && (cleaned != "" && cleaned.data.all Char.isDigit) then
      some cleaned
    else none

/-- A caller-supplied query: a Python string, or any non-string value (None,
a number, ...), all of which take the invalid-input branch of `geocode`. -/
inductive PyQuery where
  | str (s : String)
  | nonStr
  deriving DecidableEq, Repr

/-- The uniform geocoding result dictionary (`GeoResult`); the wall-clock
`timestamp` field is omitted from the model. -/
structure GeoResult where
  query : PyQuery
  query_type : String
  success : Bool
  latitude : Option ℚ
  longitude : Option ℚ
  address : Option String
  building : Option String
  road : Option String
  postal_code : Option String
  error : Option String
  deriving DecidableEq, Repr

/-- `_create_result_dict` (lines 257-280). -/
def create_result_dict (query : PyQuery) (query_type : String) : GeoResult :=
  { query := query, query_type := query_type, success := false,
    latitude := none, longitude := none, address := none, building := none,
    road := none, postal_code := none, error := none }

/-- The OneMap endpoint as an oracle: for a query string, the first result of
a successful search with at least one hit, or `none` for "not found", a
non-200 status, a network error or a malformed body — every outcome that
`_make_api_call` collapses to `None`. -/
def GeoNet : Type := String → Option GeoRaw

/-- Static-table lookup performed before any network traffic. -/
def sampleLookup (q : String) : Option GeoRaw :=
  (SAMPLE_GEOCODING_DATA.find? (fun e => e.1 == q)).map (fun e => e.2)

/-- Model of `_make_api_call` (lines 153-226): the stripped query is first
looked up in the static table; only on a miss is the network consulted. -/
def make_api_call (net : GeoNet) (query : String) : Option GeoRaw :=
  let cleaned_query := pyStrip query
  match sampleLookup cleaned_query with
  | some data => some data
  | none => net cleaned_query

/-- Model of `_extract_coordinates` (lines 228-255): both fields are coerced
with `float` (defaulting to 0 when absent); a coercion failure or a point
outside the strict Singapore box yields `none`. -/
def geo_extract_coordinates (geocoding_result : GeoRaw) : Option (ℚ × ℚ) :=
  match pyFloat (geocoding_result.LATITUDE.getD (JVal.jnum 0)),
        pyFloat (geocoding_result.LONGITUDE.getD (JVal.jnum 0)) with
  | some latitude, some longitude =>
      if boundsContains SINGAPORE_BOUNDS latitude longitude then
        some (latitude, longitude)
      else none
  | _, _ => none

/-- The ASCII apostrophe, used to reproduce the quoting in the
invalid-postal-code error message. -/
def sq : String := String.singleton (Char.ofNat 39)

/-- ASCII approximation of the regex word class `\w`. -/
def isWordChar (c : Char) : Bool := c.isAlphanum || c == '_'

/-- Whether the pattern `\b(\d{6})\b` matches the character list `l` starting
at index `i`: six digits there, no word character immediately before or
after. -/
def sixDigitRunAt (l : List Char) (i : Nat) : Bool :=
  decide (i + 6 ≤ l.length) &&
  ((List.range 6).all fun k => ((l.drop (i + k)).headD ' ').isDigit) &&
  (i == 0 || !isWordChar ((l.drop (i - 1)).headD ' ')) &&
  (i + 6 == l.length || !isWordChar ((l.drop (i + 6)).headD ' '))

/-- Model of the re.search call for the word-bounded six-digit pattern
(backslash-b, six digits, backslash-b): the leftmost standalone
six-digit run, returned as the captured group. -/
def searchSixDigit (s : String) : Option String :=
  let l := s.data
  (List.range (l.length + 1)).findSome? fun i =>
    if sixDigitRunAt l i then some (String.mk ((l.drop i).take 6)) else none

/-- Model of `geocode_postal_code` (lines 282-328). -/
def geocode_postal_code (net : GeoNet) (postal_code : String) : GeoResult :=
  let result := create_result_dict (PyQuery.str postal_code) "postal_code"
  match clean_postal_code postal_code with
  | none =>
      { result with
        error := some ("Invalid postal code format: " ++ sq ++ postal_code ++ sq) }
  | some cleaned_code =>
    let result := { result with postal_code := some cleaned_code }
    match make_api_call net cleaned_code with
    | none => { result with error := some "Postal code not found in OneMap database" }
    | some geocoding_result =>
      match geo_extract_coordinates geocoding_result with
      | none => { result with error := some "Failed to extract valid coordinates" }
      | some (latitude, longitude) =>
        { result with
          success := true
          latitude := some latitude
          longitude := some longitude
          address := some (geocoding_result.ADDRESS.getD "")
          building := some (geocoding_result.BUILDING.getD "")
          road := some (geocoding_result.ROAD.getD "") }

/-- Model of `geocode_address` (lines 330-376); for a string argument the
`not address or not isinstance or not address.strip()` guard reduces to
whitespace-only input. -/
def geocode_address (net : GeoNet) (address : String) : GeoResult :=
  let result := create_result_dict (PyQuery.str address) "address"
  if pyStrip address = "" then
    { result with error := some "Invalid address: empty or non-string input" }
  else
    match make_api_call net (pyStrip address) with
    | none => { result with error := some "Address not found in OneMap database" }
    | some geocoding_result =>
      match geo_extract_coordinates geocoding_result with
      | none => { result with error := some "Failed to extract valid coordinates" }
      | some (latitude, longitude) =>
        let addr := geocoding_result.ADDRESS.getD ""
        { result with
          success := true
          latitude := some latitude
          longitude := some longitude
          address := some addr
          building := some (geocoding_result.BUILDING.getD "")
          road := some (geocoding_result.ROAD.getD "")
          postal_code := searchSixDigit addr }

/-- Model of `geocode_building` (lines 378-425). -/
def geocode_building (net : GeoNet) (building_name : String) : GeoResult :=
  let result := create_result_dict (PyQuery.str building_name) "building"
  if pyStrip building_name = "" then
    { result with error := some "Invalid building name: empty or non-string input" }
  else
    match make_api_call net (pyStrip building_name) with
    | none => { result with error := some "Building not found in OneMap database" }
    | some geocoding_result =>
      match geo_extract_coordinates geocoding_result with
      | none => { result with error := some "Failed to extract valid coordinates" }
      | some (latitude, longitude) =>
        let addr := geocoding_result.ADDRESS.getD ""
        { result with
          success := true
          latitude := some latitude
          longitude := some longitude
          address := some addr
          building := some (geocoding_result.BUILDING.getD "")
          road := some (geocoding_result.ROAD.getD "")
          postal_code := searchSixDigit addr }

/-- Model of `geocode` (lines 427-455): invalid input short-circuits, then
the stripped query is classified — six-digit postal code first, then a
standalone six-digit run (address), otherwise building. -/
def geocode (net : GeoNet) (query : PyQuery) : GeoResult :=
  match query with
  | PyQuery.nonStr =>
      { create_result_dict PyQuery.nonStr "unknown" with
        error := some "Invalid query: empty or non-string input" }
  | PyQuery.str s =>
    if pyStrip s = "" then
      { create_result_dict (PyQuery.str s) "unknown" with
        error := some "Invalid query: empty or non-string input" }
    else
      let q := pyStrip s
      if validate_postal_code q then geocode_postal_code net q
      else if (searchSixDigit q).isSome then geocode_address net q
      else geocode_building net q

/-- Model of `batch_geocode` (lines 457-498): a strictly sequential loop
appending one `geocode` result per query; the `time.sleep(delay)` between
calls has no effect on the returned data and is not modelled; the DataFrame
conversion preserves row order. -/
def batch_geocode (net : GeoNet) (queries : List PyQuery) : List GeoResult :=
  queries.foldl (fun results query => results ++ [geocode net query]) []

/-- Aggregate success count (the sum over the success column), computed after the loop. -/
def batchSuccessful (results : List GeoResult) : Nat :=
  results.countP (fun r => r.success)

/-- `failed = len(df) - successful`. -/
def batchFailed (results : List GeoResult) : Nat :=
  results.length - batchSuccessful results

/-! Statement-side definitions: closed-form quantities the claims talk about,
record/batch constructors used to phrase the theorems, and the concrete
inputs used by counterexamples and witnesses. -/

/-- Number of readings of a period whose latitude and longitude both coerce
successfully (the per-period successfully-coerced reading count of the
spec). -/
def coercedCount (record : RawRecord) : Nat :=
  (rawReadings record).countP coercesOk

/-- Number of periods with at least one successfully-coerced reading: the
quantity the spec claims `records_with_lightning` equals. -/
def periodsWithCoercedReading (b : RawBatch) : Nat :=
  (rawRecords b).countP (fun r => decide (0 < coercedCount r))

/-- Number of periods whose raw readings list is non-empty: the quantity the
code actually counts. -/
def periodsWithRawReadings (b : RawBatch) : Nat :=
  (rawRecords b).countP (fun r => !(rawReadings r).isEmpty)

/-- Period-level datetimes that survive the `if record_datetime:` truthiness
test, in delivery order — the list the time range is computed from. -/
def periodDatetimes (b : RawBatch) : List String :=
  (rawRecords b).flatMap dtList

/-- A raw record whose item holds the given readings list. -/
def mkRawRecord (dt udt : Option String) (isSt : Option Bool) (ty : Option String)
    (rds : List RawReading) : RawRecord :=
  { datetime := dt, updatedTimestamp := udt,
    item := some { isStationData := isSt, type := ty, readings := some rds } }

/-- A raw batch with the given status code and records. -/
def mkBatch (code : Option Int) (em pt : Option String) (records : List RawRecord) :
    RawBatch :=
  { code := code, errorMsg := em,
    data := some { paginationToken := pt, records := some records } }

/-- Everything `parse_lightning_response` outputs except the raw per-period
`readings_count` and the `records_with_lightning` counter — the two fields
that can still see a reading whose coordinates failed to coerce. -/
def strikeView (p : ParsedData) :=
  (p.api_status, p.error_message, p.pagination_token,
   p.records.map (fun rd =>
     (rd.datetime, rd.updated_timestamp, rd.is_station_data,
      rd.observation_type, rd.readings)),
   p.total_strikes, p.time_range_earliest, p.time_range_latest)

/-- The success/error shape every GeoResult must satisfy: success implies
both coordinates present; failure implies an error message and absent
coordinates. -/
def geoInvariant (r : GeoResult) : Prop :=
  (r.success = true → (r.latitude.isSome ∧ r.longitude.isSome)) ∧
  (r.success = false → (r.error.isSome ∧ r.latitude = none ∧ r.longitude = none))

/-- Placeholder summary used only to name the computed value of a concrete
parse via `Option.getD`. -/
def noParsed : ParsedData :=
  { api_status := 0, error_message := "", pagination_token := none,
    records := [], total_strikes := 0, records_with_lightning := 0,
    time_range_earliest := none, time_range_latest := none }

/-- A reading whose latitude is a non-numeric string. -/
def badReading : RawReading :=
  { location := some { latitude := some (JVal.jstr "invalid"),
                       longitude := some (JVal.jstr "103.8198") },
    type := some "CG", text := some "Invalid coordinate",
    datetime := some "2024-01-15T10:00:00+08:00" }

/-- A reading with two well-formed string coordinates. -/
def goodReading : RawReading :=
  { location := some { latitude := some (JVal.jstr "1.3521"),
                       longitude := some (JVal.jstr "103.8198") },
    type := some "CG", text := some "Valid lightning",
    datetime := some "2024-01-15T10:00:00+08:00" }

/-- Accepted batch with one period whose only reading fails coercion. -/
def c1_batch : RawBatch :=
  mkBatch (some 0) none none
    [mkRawRecord (some "2024-01-15T10:00:00+08:00") none none (some "lightning")
      [badReading]]

/-- Accepted batch with one period holding one good and one bad reading. -/
def mixedBatch : RawBatch :=
  mkBatch (some 0) none none
    [mkRawRecord (some "2024-01-15T10:00:00+08:00") none none (some "lightning")
      [goodReading, badReading]]

/-- A reading whose location omits the latitude key and whose longitude is a
non-numeric string. -/
def c4_bad_reading : RawReading :=
  { location := some { latitude := none, longitude := some (JVal.jstr "invalid") },
    type := none, text := none, datetime := none }

/-- Accepted batch containing only `c4_bad_reading`. -/
def c4_batch : RawBatch :=
  mkBatch (some 0) none none
    [mkRawRecord (some "2024-01-15T10:00:00+08:00") none none none [c4_bad_reading]]

/-- A reading whose location omits the latitude key, with a parseable
longitude. -/
def c4_good_reading : RawReading :=
  { location := some { latitude := none, longitude := some (JVal.jstr "103.8198") },
    type := some "CG", text := none, datetime := none }

/-- Accepted batch whose single period carries the empty string as its
datetime: non-null, but falsy. -/
def c8_empty_dt_batch : RawBatch :=
  mkBatch (some 0) none none [mkRawRecord (some "") none none none []]

/-- Accepted batch with two periods whose datetimes are out of order. -/
def c8_two_dt_batch : RawBatch :=
  mkBatch (some 0) none none
    [mkRawRecord (some "2024-01-15T11:00:00+08:00") none none none [],
     mkRawRecord (some "2024-01-15T10:00:00+08:00") none none none []]

/-- A normalized reading far outside the display box. -/
def farReading : ReadingData :=
  { latitude := 50, longitude := 0, type := "CG", description := "far away",
    datetime := some "2024-01-15T10:00:00+08:00",
    record_datetime := some "2024-01-15T10:00:00+08:00" }

/-- A normalized record containing only `farReading`. -/
def farRecord : RecordData :=
  { datetime := some "2024-01-15T10:00:00+08:00", updated_timestamp := none,
    is_station_data := false, observation_type := "lightning",
    readings_count := 1, readings := [farReading] }

/-- A parsed summary containing only `farReading`. -/
def farParsed : ParsedData :=
  { api_status := 0, error_message := "", pagination_token := none,
    records := [farRecord],
    total_strikes := 1, records_with_lightning := 1,
    time_range_earliest := some "2024-01-15T10:00:00+08:00",
    time_range_latest := some "2024-01-15T10:00:00+08:00" }

/-- An oracle for a fully unreachable network: every search misses. -/
def netDown : GeoNet := fun _ => none

/-- The batch example from the spec: a table hit, an unresolvable name, a
table hit. -/
def demoQueries : List PyQuery :=
  [PyQuery.str "238874", PyQuery.str "not-a-real-place-xyz", PyQuery.str "018989"]

/-- The result `geocode` must produce for the table-hit postal code
"238874", for any state of the network. -/
def ionOrchardResult : GeoResult :=
  { query := PyQuery.str "238874", query_type := "postal_code", success := true,
    latitude := some (1304167 / 1000000 : ℚ),
    longitude := some (103833611 / 1000000 : ℚ),
    address := some "ION Orchard, 2 Orchard Turn, Singapore 238874",
    building := some "ION Orchard", road := some "Orchard Turn",
    postal_code := some "238874", error := none }

/-- The computed summary for `c1_batch`. -/
def c1_parsed : ParsedData := (parse_lightning_response c1_batch).getD noParsed

/-- The computed summary for `mixedBatch`. -/
def mixed_parsed : ParsedData := (parse_lightning_response mixedBatch).getD noParsed

/-- `mixedBatch` with the failing reading removed. -/
def goodOnlyBatch : RawBatch :=
  mkBatch (some 0) none none
    [mkRawRecord (some "2024-01-15T10:00:00+08:00") none none (some "lightning")
      [goodReading]]

/-- Accepted batch containing only `c4_good_reading`. -/
def c4_good_batch : RawBatch :=
  mkBatch (some 0) none none
    [mkRawRecord (some "2024-01-15T10:00:00+08:00") none none none [c4_good_reading]]

/-- The computed summary for `c4_good_batch`. -/
def c4_good_parsed : ParsedData :=
  (parse_lightning_response c4_good_batch).getD noParsed

/-- The longitude value `c4_good_reading` coerces to. -/
def c4_lon : ℚ := (readingLon? c4_good_reading).getD 0

/-- A reading whose location omits the longitude key, with a parseable
latitude. -/
def c4_lonless_reading : RawReading :=
  { location := some { latitude := some (JVal.jstr "1.3521"), longitude := none },
    type := some "CG", text := none, datetime := none }

/-- Accepted batch containing only `c4_lonless_reading`. -/
def c4_lonless_batch : RawBatch :=
  mkBatch (some 0) none none
    [mkRawRecord (some "2024-01-15T10:00:00+08:00") none none none
      [c4_lonless_reading]]

/-- The computed summary for `c4_lonless_batch`. -/
def c4_lonless_parsed : ParsedData :=
  (parse_lightning_response c4_lonless_batch).getD noParsed

/-- The latitude value `c4_lonless_reading` coerces to. -/
def c4_lat : ℚ := (readingLat? c4_lonless_reading).getD 0

/-- The computed summary for `c8_two_dt_batch`. -/
def c8_two_parsed : ParsedData :=
  (parse_lightning_response c8_two_dt_batch).getD noParsed

/-- The static table entry for "238874". -/
def ionGeoRaw : GeoRaw :=
  { ADDRESS := some "ION Orchard, 2 Orchard Turn, Singapore 238874",
    BUILDING := some "ION Orchard", ROAD := some "Orchard Turn",
    LATITUDE := some (JVal.jstr "1.304167"),
    LONGITUDE := some (JVal.jstr "103.833611") }

/-! Helper lemmas: closed forms for the imperative loops. -/

lemma parseReading_isSome (dt : Option String) (r : RawReading) :
    (parseReading dt r).isSome = coercesOk r := by
  unfold parseReading coercesOk
  cases readingLat? r <;> cases readingLon? r <;> simp

lemma length_filterMap_parseReading (dt : Option String) (l : List RawReading) :
    (l.filterMap (parseReading dt)).length = l.countP coercesOk := by
  induction l with
  | nil => rfl
  | cons a l ih =>
    rw [List.filterMap_cons, List.countP_cons]
    cases h : parseReading dt a with
    | none =>
      have hc : coercesOk a = false := by rw [← parseReading_isSome dt a, h]; rfl
      simp [hc, ih]
    | some v =>
      have hc : coercesOk a = true := by rw [← parseReading_isSome dt a, h]; rfl
      simp [hc, ih]

lemma recordDataOf_readings (r : RawRecord) :
    (recordDataOf r).readings = (rawReadings r).filterMap (parseReading r.datetime) := rfl

lemma recordDataOf_readings_length (r : RawRecord) :
    (recordDataOf r).readings.length = coercedCount r := by
  rw [recordDataOf_readings, length_filterMap_parseReading]
  rfl

lemma foldl_processRecord (records : List RawRecord) (st : LightState) :
    records.foldl processRecord st =
      { records := st.records ++ records.map recordDataOf
        total_strikes :=
          st.total_strikes +
            (records.map (fun r => (recordDataOf r).readings.length)).sum
        records_with_lightning :=
          st.records_with_lightning + records.countP (fun r => !(rawReadings r).isEmpty)
        all_datetimes := st.all_datetimes ++ records.flatMap dtList } := by
  induction records generalizing st with
  | nil =>
    cases st
    simp
  | cons r rs ih =>
    rw [List.foldl_cons, ih]
    cases h : (rawReadings r).isEmpty <;>
      simp [processRecord, h, List.countP_cons, List.append_assoc, Nat.add_assoc,
        Nat.add_comm 1]

lemma parse_lightning_response_closed (b : RawBatch) (h : b.code = some 0) :
    parse_lightning_response b =
      some { api_status := 0
             error_message := b.errorMsg.getD ""
             pagination_token := (b.data.getD ⟨none, none⟩).paginationToken
             records := (rawRecords b).map recordDataOf
             total_strikes :=
               ((rawRecords b).map (fun r => (recordDataOf r).readings.length)).sum
             records_with_lightning := periodsWithRawReadings b
             time_range_earliest := pyStrMin (periodDatetimes b)
             time_range_latest := pyStrMax (periodDatetimes b) } := by
  simp only [parse_lightning_response, h, if_pos, foldl_processRecord,
    periodsWithRawReadings, periodDatetimes]
  simp

lemma parse_lightning_response_isSome (b : RawBatch) :
    (parse_lightning_response b).isSome ↔ b.code = some 0 := by
  by_cases h : b.code = some 0
  · simp [parse_lightning_response, h]
  · simp [parse_lightning_response, h]

lemma code_of_parse_eq_some (b : RawBatch) (p : ParsedData)
    (h : parse_lightning_response b = some p) : b.code = some 0 := by
  have := (parse_lightning_response_isSome b).mp (by rw [h]; rfl)
  exact this

lemma pyFoldMin_mem (x : String) (xs : List String) :
    xs.foldl (fun best s => if pyStrLt s best then s else best) x ∈ x :: xs := by
  induction xs generalizing x with
  | nil => simp
  | cons a as ih =>
    rw [List.foldl_cons]
    rcases List.mem_cons.mp (ih (if pyStrLt a x then a else x)) with h | h
    · by_cases hc : pyStrLt a x
      · rw [if_pos hc] at h
        simp [hc, h]
      · rw [if_neg hc] at h
        simp [hc, h]
    · simp [List.mem_cons, Or.inr (Or.inr h)]

lemma pyFoldMin_le (x : String) (xs : List String) :
    ∀ y ∈ x :: xs,
      (xs.foldl (fun best s => if pyStrLt s best then s else best) x).data ≤ y.data := by
  induction xs generalizing x with
  | nil =>
    intro y hy
    simp at hy
    simp [hy]
  | cons a as ih =>
    intro y hy
    rw [List.foldl_cons]
    have hseed : (if pyStrLt a x then a else x).data ≤ x.data ∧
        (if pyStrLt a x then a else x).data ≤ a.data := by
      by_cases hc : pyStrLt a x
      · have hlt : a.data < x.data := by simpa [pyStrLt] using hc
        rw [if_pos hc]
        exact ⟨le_of_lt hlt, le_refl _⟩
      · have hnlt : ¬ a.data < x.data := by simpa [pyStrLt] using hc
        rw [if_neg hc]
        exact ⟨le_refl _, le_of_not_lt hnlt⟩
    rcases List.mem_cons.mp hy with rfl | hy2
    · exact le_trans (ih _ _ (List.mem_cons_self _ _)) hseed.1
    rcases List.mem_cons.mp hy2 with rfl | hy3
    · exact le_trans (ih _ _ (List.mem_cons_self _ _)) hseed.2
    · exact ih _ _ (List.mem_cons_of_mem _ hy3)

lemma pyFoldMax_mem (x : String) (xs : List String) :
    xs.foldl (fun best s => if pyStrLt best s then s else best) x ∈ x :: xs := by
  induction xs generalizing x with
  | nil => simp
  | cons a as ih =>
    rw [List.foldl_cons]
    rcases List.mem_cons.mp (ih (if pyStrLt x a then a else x)) with h | h
    · by_cases hc : pyStrLt x a
      · rw [if_pos hc] at h
        simp [hc, h]
      · rw [if_neg hc] at h
        simp [hc, h]
    · simp [List.mem_cons, Or.inr (Or.inr h)]

lemma pyFoldMax_ge (x : String) (xs : List String) :
    ∀ y ∈ x :: xs,
      y.data ≤ (xs.foldl (fun best s => if pyStrLt best s then s else best) x).data := by
  induction xs generalizing x with
  | nil =>
    intro y hy
    simp at hy
    simp [hy]
  | cons a as ih =>
    intro y hy
    rw [List.foldl_cons]
    have hseed : x.data ≤ (if pyStrLt x a then a else x).data ∧
        a.data ≤ (if pyStrLt x a then a else x).data := by
      by_cases hc : pyStrLt x a
      · have hlt : x.data < a.data := by simpa [pyStrLt] using hc
        rw [if_pos hc]
        exact ⟨le_of_lt hlt, le_refl _⟩
      · have hnlt : ¬ x.data < a.data := by simpa [pyStrLt] using hc
        rw [if_neg hc]
        exact ⟨le_refl _, le_of_not_lt hnlt⟩
    rcases List.mem_cons.mp hy with rfl | hy2
    · exact le_trans hseed.1 (ih _ _ (List.mem_cons_self _ _))
    rcases List.mem_cons.mp hy2 with rfl | hy3
    · exact le_trans hseed.2 (ih _ _ (List.mem_cons_self _ _))
    · exact ih _ _ (List.mem_cons_of_mem _ hy3)

lemma pyStrMin_none_iff (l : List String) : pyStrMin l = none ↔ l = [] := by
  cases l <;> simp [pyStrMin]

lemma pyStrMax_none_iff (l : List String) : pyStrMax l = none ↔ l = [] := by
  cases l <;> simp [pyStrMax]

lemma pyStrMin_spec (l : List String) (m : String) (h : pyStrMin l = some m) :
    m ∈ l ∧ ∀ x ∈ l, m.data ≤ x.data := by
  cases l with
  | nil => simp [pyStrMin] at h
  | cons x xs =>
    simp only [pyStrMin, Option.some.injEq] at h
    subst h
    exact ⟨pyFoldMin_mem x xs, fun y hy => pyFoldMin_le x xs y hy⟩

lemma pyStrMax_spec (l : List String) (m : String) (h : pyStrMax l = some m) :
    m ∈ l ∧ ∀ x ∈ l, x.data ≤ m.data := by
  cases l with
  | nil => simp [pyStrMax] at h
  | cons x xs =>
    simp only [pyStrMax, Option.some.injEq] at h
    subst h
    exact ⟨pyFoldMax_mem x xs, fun y hy => pyFoldMax_ge x xs y hy⟩

lemma foldl_coords (rs : List RecordData) (acc : List CoordData) :
    rs.foldl (fun acc record => acc ++ record.readings.map (coordOf record.datetime)) acc
      = acc ++ rs.flatMap (fun record => record.readings.map (coordOf record.datetime)) := by
  induction rs generalizing acc with
  | nil => simp
  | cons r rs ih => simp [List.foldl_cons, ih, List.flatMap_cons, List.append_assoc]

lemma extract_coordinates_eq (p : ParsedData) :
    extract_coordinates p
      = p.records.flatMap (fun record => record.readings.map (coordOf record.datetime)) := by
  unfold extract_coordinates
  cases h : p.records with
  | nil => simp [h]
  | cons r rs => simp [h, foldl_coords]

/-! Claim theorems. -/

/-- C1, counterexample: the claim says `records_with_lightning` counts only
periods with at least one successfully-coerced reading, so that a period
whose readings all fail coercion is not counted.  On `c1_batch` — one period
whose single reading has the non-numeric latitude "invalid" — the code
reports `records_with_lightning = 1` although the number of periods with a
successfully-coerced reading is 0. -/
theorem c1_records_with_lightning_counterexample :
    (parse_lightning_response c1_batch).map (fun p => p.records_with_lightning)
        = some 1 ∧
      periodsWithCoercedReading c1_batch = 0 := by
  constructor
  · decide
  · decide

/-- C1, amended: for every batch accepted by `parse_lightning_response`, the
returned `records_with_lightning` equals the number of time-period records
whose raw readings list is non-empty — a period is counted as soon as it has
any reading at all, whether or not any of its readings coerce successfully
(the counter is incremented before coercion is attempted). -/
theorem c1_records_with_lightning_amended (b : RawBatch) (p : ParsedData)
    (h : parse_lightning_response b = some p) :
    p.records_with_lightning = periodsWithRawReadings b := by
  have hc := code_of_parse_eq_some b p h
  rw [parse_lightning_response_closed b hc] at h
  have h2 := Option.some.inj h
  subst h2
  rfl

/-- C1, witness: the amended statement instantiated on `c1_batch`. -/
theorem c1_records_with_lightning_witness :
    parse_lightning_response c1_batch = some c1_parsed ∧
      c1_parsed.records_with_lightning = periodsWithRawReadings c1_batch :=
  ⟨rfl, c1_records_with_lightning_amended c1_batch c1_parsed rfl⟩

/-- C2: for every batch accepted by `parse_lightning_response` (status code
0), the returned `total_strikes` equals the sum, over all time-period
records, of the number of readings in that period whose latitude and
longitude both coerce successfully. -/
theorem c2_total_strikes_eq_sum (b : RawBatch) (p : ParsedData)
    (h : parse_lightning_response b = some p) :
    p.total_strikes = ((rawRecords b).map coercedCount).sum := by
  have hc := code_of_parse_eq_some b p h
  rw [parse_lightning_response_closed b hc] at h
  have h2 := Option.some.inj h
  subst h2
  show ((rawRecords b).map (fun r => (recordDataOf r).readings.length)).sum = _
  simp only [recordDataOf_readings_length]

/-- C2, witness: on `mixedBatch` (one period, one good and one bad reading)
the parsed `total_strikes` equals the coerced-reading sum, namely 1. -/
theorem c2_total_strikes_witness :
    parse_lightning_response mixedBatch = some mixed_parsed ∧
      mixed_parsed.total_strikes = ((rawRecords mixedBatch).map coercedCount).sum ∧
      mixed_parsed.total_strikes = 1 :=
  ⟨rfl, c2_total_strikes_eq_sum mixedBatch mixed_parsed rfl, by decide⟩

/-- C3: a reading whose coordinates fail to coerce is excluded from the
output and nothing is raised, leaving every other reading and period
untouched: inserting such a reading anywhere inside any period changes
nothing in the parse result except the raw per-period `readings_count` and
the `records_with_lightning` counter (`strikeView` keeps all other fields),
and the parse still succeeds exactly when the status code is 0. -/
theorem c3_bad_reading_isolated
    (code : Option Int) (em pt : Option String) (pre post : List RawRecord)
    (dt udt ty : Option String) (isSt : Option Bool)
    (rs1 rs2 : List RawReading) (bad : RawReading)
    (h : coercesOk bad = false) :
    ((parse_lightning_response
        (mkBatch code em pt
          (pre ++ mkRawRecord dt udt isSt ty (rs1 ++ bad :: rs2) :: post))).map
        strikeView
      = (parse_lightning_response
        (mkBatch code em pt
          (pre ++ mkRawRecord dt udt isSt ty (rs1 ++ rs2) :: post))).map
        strikeView) ∧
    ((parse_lightning_response
        (mkBatch code em pt
          (pre ++ mkRawRecord dt udt isSt ty (rs1 ++ bad :: rs2) :: post))).isSome
      ↔ code = some 0) := by
  have hbad : parseReading dt bad = none := by
    have hs := parseReading_isSome dt bad
    rw [h] at hs
    cases hpb : parseReading dt bad with
    | none => rfl
    | some v => rw [hpb] at hs; simp at hs
  constructor
  · by_cases hc : code = some 0
    · subst hc
      rw [parse_lightning_response_closed _ rfl, parse_lightning_response_closed _ rfl]
      have hread : (rs1 ++ bad :: rs2).filterMap (parseReading dt)
          = (rs1 ++ rs2).filterMap (parseReading dt) := by
        simp [List.filterMap_append, List.filterMap_cons, hbad]
      simp [strikeView, rawRecords, mkBatch, mkRawRecord, recordDataOf,
        periodDatetimes, dtList, hread, List.map_append, List.sum_append,
        List.flatMap_append]
    · simp [parse_lightning_response, mkBatch, hc]
  · rw [parse_lightning_response_isSome]
    exact Iff.rfl

/-- C3, witness: inserting the non-coercing `badReading` after `goodReading`
leaves the parse output (up to `strikeView`) identical to the batch without
it. -/
theorem c3_bad_reading_isolated_witness :
    coercesOk badReading = false ∧
      (parse_lightning_response mixedBatch).map strikeView
        = (parse_lightning_response goodOnlyBatch).map strikeView :=
  ⟨by decide,
   (c3_bad_reading_isolated (some 0) none none [] []
      (some "2024-01-15T10:00:00+08:00") none (some "lightning") none
      [goodReading] [] badReading (by decide)).1⟩

/-- C4, counterexample: the claim asserts that a reading whose location
omits the latitude key is never dropped.  `c4_bad_reading` omits latitude
but carries a non-numeric longitude, and is dropped: the normalized
readings list of the only period is empty and `extract_coordinates` returns
nothing. -/
theorem c4_missing_key_counterexample :
    (readingLocation c4_bad_reading).latitude = none ∧
      (parse_lightning_response c4_batch).map
          (fun p => p.records.map (fun rd => rd.readings)) = some [[]] ∧
      (parse_lightning_response c4_batch).map (fun p => extract_coordinates p)
        = some [] := by
  exact ⟨rfl, by decide, by decide⟩

lemma mem_extract_of_parseReading
    (em pt : Option String) (pre post : List RawRecord)
    (dt udt ty : Option String) (isSt : Option Bool)
    (rs1 rs2 : List RawReading) (r : RawReading) (rd : ReadingData)
    (p : ParsedData)
    (hpr : parseReading dt r = some rd)
    (hp : parse_lightning_response
        (mkBatch (some 0) em pt
          (pre ++ mkRawRecord dt udt isSt ty (rs1 ++ r :: rs2) :: post))
        = some p) :
    coordOf dt rd ∈ extract_coordinates p := by
  rw [parse_lightning_response_closed _ rfl] at hp
  have h2 := Option.some.inj hp
  subst h2
  rw [extract_coordinates_eq]
  have hmem : rd ∈ (rs1 ++ r :: rs2).filterMap (parseReading dt) :=
    List.mem_filterMap.mpr ⟨r, by simp, hpr⟩
  refine List.mem_flatMap.mpr
    ⟨recordDataOf (mkRawRecord dt udt isSt ty (rs1 ++ r :: rs2)), ?_, ?_⟩
  · exact List.mem_map_of_mem _
      (List.mem_append.mpr (Or.inr (List.mem_cons_self _ _)))
  · exact List.mem_map.mpr ⟨_, hmem, rfl⟩

/-- C4, amended: for a reading whose location omits the latitude key, or the
longitude key, the missing field defaults to 0.  When the other coordinate
coerces successfully the reading is NOT dropped: it is emitted as a strike
record with the missing coordinate equal to 0.0, which `extract_coordinates`
then includes in the returned coordinates list (first two parts, one per
omitted key).  When the other present coordinate fails to coerce, the
reading IS dropped: it yields no strike record and contributes nothing to
the normalized readings of its period (last two parts). -/
theorem c4_missing_key_amended
    (em pt : Option String) (pre post : List RawRecord)
    (dt udt ty : Option String) (isSt : Option Bool)
    (rs1 rs2 : List RawReading) (r : RawReading) (v : ℚ) (p : ParsedData) :
    ((readingLocation r).latitude = none → readingLon? r = some v →
      parse_lightning_response
          (mkBatch (some 0) em pt
            (pre ++ mkRawRecord dt udt isSt ty (rs1 ++ r :: rs2) :: post))
          = some p →
      parseReading dt r = some
          { latitude := 0, longitude := v, type := r.type.getD "Unknown",
            description := r.text.getD "Unknown", datetime := r.datetime,
            record_datetime := dt } ∧
      ({ latitude := 0, longitude := v, type := r.type.getD "Unknown",
         description := r.text.getD "Unknown", datetime := r.datetime,
         record_datetime := dt } : CoordData) ∈ extract_coordinates p) ∧
    ((readingLocation r).longitude = none → readingLat? r = some v →
      parse_lightning_response
          (mkBatch (some 0) em pt
            (pre ++ mkRawRecord dt udt isSt ty (rs1 ++ r :: rs2) :: post))
          = some p →
      parseReading dt r = some
          { latitude := v, longitude := 0, type := r.type.getD "Unknown",
            description := r.text.getD "Unknown", datetime := r.datetime,
            record_datetime := dt } ∧
      ({ latitude := v, longitude := 0, type := r.type.getD "Unknown",
         description := r.text.getD "Unknown", datetime := r.datetime,
         record_datetime := dt } : CoordData) ∈ extract_coordinates p) ∧
    ((readingLocation r).latitude = none → readingLon? r = none →
      parseReading dt r = none ∧
      (rs1 ++ r :: rs2).filterMap (parseReading dt)
        = (rs1 ++ rs2).filterMap (parseReading dt)) ∧
    ((readingLocation r).longitude = none → readingLat? r = none →
      parseReading dt r = none ∧
      (rs1 ++ r :: rs2).filterMap (parseReading dt)
        = (rs1 ++ rs2).filterMap (parseReading dt)) := by
  refine ⟨?_, ?_, ?_, ?_⟩
  · intro hlat hlon hp
    have hlatq : readingLat? r = some 0 := by
      unfold readingLat?
      rw [hlat]
      rfl
    have hpr : parseReading dt r = some
        { latitude := 0, longitude := v, type := r.type.getD "Unknown",
          description := r.text.getD "Unknown", datetime := r.datetime,
          record_datetime := dt } := by
      unfold parseReading
      rw [hlatq, hlon]
    exact ⟨hpr,
      mem_extract_of_parseReading em pt pre post dt udt ty isSt rs1 rs2 r _ p hpr hp⟩
  · intro hlon hlat hp
    have hlonq : readingLon? r = some 0 := by
      unfold readingLon?
      rw [hlon]
      rfl
    have hpr : parseReading dt r = some
        { latitude := v, longitude := 0, type := r.type.getD "Unknown",
          description := r.text.getD "Unknown", datetime := r.datetime,
          record_datetime := dt } := by
      unfold parseReading
      rw [hlat, hlonq]
    exact ⟨hpr,
      mem_extract_of_parseReading em pt pre post dt udt ty isSt rs1 rs2 r _ p hpr hp⟩
  · intro hlat hlon
    have hlatq : readingLat? r = some 0 := by
      unfold readingLat?
      rw [hlat]
      rfl
    have hpr : parseReading dt r = none := by
      unfold parseReading
      rw [hlatq, hlon]
    refine ⟨hpr, ?_⟩
    simp [List.filterMap_append, List.filterMap_cons, hpr]
  · intro _ hlat
    have hpr : parseReading dt r = none := by
      unfold parseReading
      rw [hlat]
    refine ⟨hpr, ?_⟩
    simp [List.filterMap_append, List.filterMap_cons, hpr]

/-- C4, witness: `c4_good_reading` omits latitude and its strike record with
latitude 0 shows up in the extracted coordinates; `c4_lonless_reading` omits
longitude and shows up with longitude 0; `c4_bad_reading` omits latitude but
its longitude fails to coerce, and it yields no strike record. -/
theorem c4_missing_key_witness :
    (readingLocation c4_good_reading).latitude = none ∧
      ({ latitude := 0, longitude := c4_lon, type := "CG", description := "Unknown",
         datetime := none, record_datetime := some "2024-01-15T10:00:00+08:00" } :
        CoordData) ∈ extract_coordinates c4_good_parsed ∧
      (readingLocation c4_lonless_reading).longitude = none ∧
      ({ latitude := c4_lat, longitude := 0, type := "CG", description := "Unknown",
         datetime := none, record_datetime := some "2024-01-15T10:00:00+08:00" } :
        CoordData) ∈ extract_coordinates c4_lonless_parsed ∧
      parseReading (some "2024-01-15T10:00:00+08:00") c4_bad_reading = none := by
  refine ⟨rfl, ?_, rfl, ?_, ?_⟩
  · exact ((c4_missing_key_amended none none [] []
      (some "2024-01-15T10:00:00+08:00") none none none [] []
      c4_good_reading c4_lon c4_good_parsed).1 rfl rfl rfl).2
  · exact ((c4_missing_key_amended none none [] []
      (some "2024-01-15T10:00:00+08:00") none none none [] []
      c4_lonless_reading c4_lat c4_lonless_parsed).2.1 rfl rfl rfl).2
  · exact ((c4_missing_key_amended none none [] []
      (some "2024-01-15T10:00:00+08:00") none none none [] []
      c4_bad_reading 0 noParsed).2.2.1 rfl (by decide)).1

/-- C8, counterexample: the claim ranges over all periods whose datetime is
non-null, but the code tests Python truthiness, so a period carrying the
empty string — non-null — is skipped: on `c8_empty_dt_batch` the period
datetimes contain the (non-null) empty string, yet both ends of the time
range come back null instead of the claimed lexicographic min/max. -/
theorem c8_time_range_counterexample :
    (rawRecords c8_empty_dt_batch).filterMap (fun r => r.datetime) = [""] ∧
      (parse_lightning_response c8_empty_dt_batch).map
          (fun p => p.time_range_earliest) = some none ∧
      (parse_lightning_response c8_empty_dt_batch).map
          (fun p => p.time_range_latest) = some none := by
  exact ⟨by decide, by decide, by decide⟩

/-- C8, amended: `time_range.earliest` and `time_range.latest` are the
lexicographic (code-point) string minimum and maximum of the period-level
datetimes that are non-null AND non-empty (`periodDatetimes`, which reads
only record-level datetimes — per-reading timestamps are never consulted),
and both are null exactly when no period has such a timestamp. -/
theorem c8_time_range_amended (b : RawBatch) (p : ParsedData)
    (h : parse_lightning_response b = some p) :
    (p.time_range_earliest = none ↔ periodDatetimes b = []) ∧
      (∀ m, p.time_range_earliest = some m →
        m ∈ periodDatetimes b ∧ ∀ x ∈ periodDatetimes b, m.data ≤ x.data) ∧
      (p.time_range_latest = none ↔ periodDatetimes b = []) ∧
      (∀ m, p.time_range_latest = some m →
        m ∈ periodDatetimes b ∧ ∀ x ∈ periodDatetimes b, x.data ≤ m.data) := by
  have hc := code_of_parse_eq_some b p h
  rw [parse_lightning_response_closed b hc] at h
  have h2 := Option.some.inj h
  subst h2
  refine ⟨?_, ?_, ?_, ?_⟩
  · exact pyStrMin_none_iff (periodDatetimes b)
  · exact fun m hm => pyStrMin_spec (periodDatetimes b) m hm
  · exact pyStrMax_none_iff (periodDatetimes b)
  · exact fun m hm => pyStrMax_spec (periodDatetimes b) m hm

/-- C8, witness: on `c8_two_dt_batch` (two periods, datetimes out of order)
the computed earliest value is the smaller string. -/
theorem c8_time_range_witness :
    parse_lightning_response c8_two_dt_batch = some c8_two_parsed ∧
      (c8_two_parsed.time_range_earliest = none ↔
        periodDatetimes c8_two_dt_batch = []) ∧
      c8_two_parsed.time_range_earliest = some "2024-01-15T10:00:00+08:00" :=
  ⟨rfl, (c8_time_range_amended c8_two_dt_batch c8_two_parsed rfl).1, by decide⟩

/-- C9: `extract_coordinates` returns exactly the readings present in the
parsed records, in order, as a flat concatenation — the Singapore-bounds
tally never filters, drops or reorders anything; in particular a reading
lying outside the display box still appears in the returned list. -/
theorem c9_extract_never_filters (p : ParsedData) :
    extract_coordinates p
        = p.records.flatMap (fun record => record.readings.map (coordOf record.datetime)) ∧
      ∀ rec ∈ p.records, ∀ rd ∈ rec.readings,
        boundsContains singapore_bounds rd.latitude rd.longitude = false →
          coordOf rec.datetime rd ∈ extract_coordinates p := by
  refine ⟨extract_coordinates_eq p, ?_⟩
  intro rec hrec rd hrd _
  rw [extract_coordinates_eq]
  exact List.mem_flatMap.mpr ⟨rec, hrec, List.mem_map_of_mem _ hrd⟩

/-- C9, witness: a point at latitude 50 — far outside the display box — is
still returned by `extract_coordinates`. -/
theorem c9_extract_never_filters_witness :
    boundsContains singapore_bounds farReading.latitude farReading.longitude
        = false ∧
      coordOf (some "2024-01-15T10:00:00+08:00") farReading
        ∈ extract_coordinates farParsed := by
  have hb : boundsContains singapore_bounds farReading.latitude
      farReading.longitude = false := by
    norm_num [boundsContains, singapore_bounds, farReading]
  refine ⟨hb, ?_⟩
  exact (c9_extract_never_filters farParsed).2 farRecord (List.mem_cons_self _ _)
    farReading (List.mem_cons_self _ _) hb

lemma geoInvariant_geocode_postal_code (net : GeoNet) (s : String) :
    geoInvariant (geocode_postal_code net s) := by
  unfold geocode_postal_code
  split
  · simp [geoInvariant, create_result_dict]
  · split
    · simp [geoInvariant, create_result_dict]
    · split
      · simp [geoInvariant, create_result_dict]
      · simp [geoInvariant, create_result_dict]

lemma geoInvariant_geocode_address (net : GeoNet) (s : String) :
    geoInvariant (geocode_address net s) := by
  unfold geocode_address
  split
  · simp [geoInvariant, create_result_dict]
  · split
    · simp [geoInvariant, create_result_dict]
    · split
      · simp [geoInvariant, create_result_dict]
      · simp [geoInvariant, create_result_dict]

lemma geoInvariant_geocode_building (net : GeoNet) (s : String) :
    geoInvariant (geocode_building net s) := by
  unfold geocode_building
  split
  · simp [geoInvariant, create_result_dict]
  · split
    · simp [geoInvariant, create_result_dict]
    · split
      · simp [geoInvariant, create_result_dict]
      · simp [geoInvariant, create_result_dict]

/-- C5: every result dictionary produced by `geocode` or any of its
sub-paths (`geocode_postal_code`, `geocode_address`, `geocode_building`,
including the invalid-input path) satisfies: success implies both
coordinates non-null, and failure implies a non-null error string with both
coordinates null — never a failure with a null error, never coordinates
without success. -/
theorem c5_georesult_invariant (net : GeoNet) :
    (∀ q, geoInvariant (geocode net q)) ∧
      (∀ s, geoInvariant (geocode_postal_code net s)) ∧
      (∀ s, geoInvariant (geocode_address net s)) ∧
      (∀ s, geoInvariant (geocode_building net s)) := by
  refine ⟨?_, fun s => geoInvariant_geocode_postal_code net s,
    fun s => geoInvariant_geocode_address net s,
    fun s => geoInvariant_geocode_building net s⟩
  intro q
  cases q with
  | nonStr => simp [geocode, geoInvariant, create_result_dict]
  | str s =>
    simp only [geocode]
    by_cases h1 : pyStrip s = ""
    · simp [h1, geoInvariant, create_result_dict]
    · rw [if_neg h1]
      by_cases h2 : validate_postal_code (pyStrip s) = true
      · rw [if_pos h2]
        exact geoInvariant_geocode_postal_code net _
      · rw [if_neg h2]
        by_cases h3 : (searchSixDigit (pyStrip s)).isSome = true
        · rw [if_pos h3]
          exact geoInvariant_geocode_address net _
        · rw [if_neg h3]
          exact geoInvariant_geocode_building net _

/-- C5, witness: the invariant instantiated on the empty query — the result
fails and carries an error message. -/
theorem c5_georesult_invariant_witness :
    (geocode netDown (PyQuery.str "")).success = false ∧
      (geocode netDown (PyQuery.str "")).error.isSome = true := by
  have h := ((c5_georesult_invariant netDown).1 (PyQuery.str "")).2 (by decide)
  exact ⟨by decide, h.1⟩

lemma query_type_geocode_postal_code (net : GeoNet) (s : String) :
    (geocode_postal_code net s).query_type = "postal_code" := by
  unfold geocode_postal_code
  split
  · rfl
  · split
    · rfl
    · split
      · rfl
      · rfl

lemma query_type_geocode_address (net : GeoNet) (s : String) :
    (geocode_address net s).query_type = "address" := by
  unfold geocode_address
  split
  · rfl
  · split
    · rfl
    · split
      · rfl
      · rfl

lemma query_type_geocode_building (net : GeoNet) (s : String) :
    (geocode_building net s).query_type = "building" := by
  unfold geocode_building
  split
  · rfl
  · split
    · rfl
    · split
      · rfl
      · rfl

/-- C6: `geocode` classifies its query by first match in this order: a
non-string or empty/whitespace query yields the `unknown` result with an
error, built without consulting the network oracle (the result is the same
constant for every `net`); a stripped query passing the six-digit
postal-code validation is handled as `postal_code`; otherwise a query with a
standalone six-digit run is handled as `address`; anything else as
`building`. -/
theorem c6_classification (net : GeoNet) (s : String) :
    (geocode net PyQuery.nonStr
        = { create_result_dict PyQuery.nonStr "unknown" with
            error := some "Invalid query: empty or non-string input" }) ∧
      (pyStrip s = "" → geocode net (PyQuery.str s)
        = { create_result_dict (PyQuery.str s) "unknown" with
            error := some "Invalid query: empty or non-string input" }) ∧
      (pyStrip s ≠ "" → validate_postal_code (pyStrip s) = true →
        (geocode net (PyQuery.str s)).query_type = "postal_code") ∧
      (pyStrip s ≠ "" → validate_postal_code (pyStrip s) = false →
        (searchSixDigit (pyStrip s)).isSome = true →
        (geocode net (PyQuery.str s)).query_type = "address") ∧
      (pyStrip s ≠ "" → validate_postal_code (pyStrip s) = false →
        searchSixDigit (pyStrip s) = none →
        (geocode net (PyQuery.str s)).query_type = "building") := by
  refine ⟨rfl, ?_, ?_, ?_, ?_⟩
  · intro h1
    simp only [geocode]
    rw [if_pos h1]
  · intro h1 h2
    simp only [geocode]
    rw [if_neg h1, if_pos h2]
    exact query_type_geocode_postal_code net _
  · intro h1 h2 h3
    simp only [geocode]
    rw [if_neg h1, if_neg (by simp [h2]), if_pos h3]
    exact query_type_geocode_address net _
  · intro h1 h2 h3
    simp only [geocode]
    rw [if_neg h1, if_neg (by simp [h2]), if_neg (by simp [h3])]
    exact query_type_geocode_building net _

/-- C6, witness: the classification instantiated on a plain building name. -/
theorem c6_classification_witness :
    (geocode netDown (PyQuery.str "Marina Bay Sands")).query_type
      = "building" := by
  exact (c6_classification netDown "Marina Bay Sands").2.2.2.2
    (by decide) (by decide) (by decide)

lemma parseFloat_ion_lat :
    parseFloat? "1.304167" = some (1304167 / 1000000 : ℚ) := by
  have h : parseFloat? "1.304167"
      = some ((1 : ℚ) * ((digitsVal ['1'] : ℚ)
          + (digitsVal ['3', '0', '4', '1', '6', '7'] : ℚ) / 10 ^ 6)) := rfl
  rw [h, show digitsVal ['1'] = 1 from rfl,
    show digitsVal ['3', '0', '4', '1', '6', '7'] = 304167 from rfl]
  norm_num

lemma parseFloat_ion_lon :
    parseFloat? "103.833611" = some (103833611 / 1000000 : ℚ) := by
  have h : parseFloat? "103.833611"
      = some ((1 : ℚ) * ((digitsVal ['1', '0', '3'] : ℚ)
          + (digitsVal ['8', '3', '3', '6', '1', '1'] : ℚ) / 10 ^ 6)) := rfl
  rw [h, show digitsVal ['1', '0', '3'] = 103 from rfl,
    show digitsVal ['8', '3', '3', '6', '1', '1'] = 833611 from rfl]
  norm_num

lemma geo_extract_ion :
    geo_extract_coordinates ionGeoRaw
      = some ((1304167 / 1000000 : ℚ), (103833611 / 1000000 : ℚ)) := by
  have hb : boundsContains SINGAPORE_BOUNDS (1304167 / 1000000 : ℚ)
      (103833611 / 1000000 : ℚ) = true := by
    norm_num [boundsContains, SINGAPORE_BOUNDS]
  unfold geo_extract_coordinates
  rw [show ionGeoRaw.LATITUDE.getD (JVal.jnum 0) = JVal.jstr "1.304167" from rfl,
    show ionGeoRaw.LONGITUDE.getD (JVal.jnum 0) = JVal.jstr "103.833611" from rfl]
  rw [show pyFloat (JVal.jstr "1.304167") = some (1304167 / 1000000 : ℚ) from
      parseFloat_ion_lat,
    show pyFloat (JVal.jstr "103.833611") = some (103833611 / 1000000 : ℚ) from
      parseFloat_ion_lon]
  simp [hb]

/-- C7: for the query "238874" — an entry of the static lookup table —
`geocode` returns, for EVERY state of the network oracle (so without any
network call), a successful result whose latitude is 1.304167 and longitude
is 103.833611, i.e. the table string values parsed as rationals, accepted by
the strict bounds check. -/
theorem c7_table_hit (net : GeoNet) :
    geocode net (PyQuery.str "238874") = ionOrchardResult := by
  have hclean : clean_postal_code "238874" = some "238874" := by decide
  have htab : make_api_call net "238874" = some ionGeoRaw := rfl
  have hmain : geocode_postal_code net "238874" = ionOrchardResult := by
    unfold geocode_postal_code
    simp only [hclean, htab, geo_extract_ion]
    rfl
  exact hmain

lemma foldl_geocode_append (net : GeoNet) (qs : List PyQuery)
    (acc : List GeoResult) :
    qs.foldl (fun results query => results ++ [geocode net query]) acc
      = acc ++ qs.map (geocode net) := by
  induction qs generalizing acc with
  | nil => simp
  | cons q qs ih => simp [List.foldl_cons, ih]

lemma batch_geocode_eq_map (net : GeoNet) (qs : List PyQuery) :
    batch_geocode net qs = qs.map (geocode net) := by
  unfold batch_geocode
  rw [foldl_geocode_append]
  simp

/-- C10: `batch_geocode` returns exactly one result per input query, in
input order — result i is `geocode` of query i — processing strictly
sequentially; a failing query never aborts the run or skips later queries
(any middle query contributes exactly one result while the queries before
and after it are processed unchanged), and the success/failure counts computed afterwards
are an aggregate over the per-item results that always add up to the number
of queries. -/
theorem c10_batch_geocode (net : GeoNet) (queries : List PyQuery) :
    (batch_geocode net queries).length = queries.length ∧
      batch_geocode net queries = queries.map (geocode net) ∧
      (∀ i (h1 : i < (batch_geocode net queries).length)
          (h2 : i < queries.length),
        (batch_geocode net queries).get ⟨i, h1⟩
          = geocode net (queries.get ⟨i, h2⟩)) ∧
      (∀ qs1 q qs2, batch_geocode net (qs1 ++ q :: qs2)
        = batch_geocode net qs1 ++ geocode net q :: batch_geocode net qs2) ∧
      batchSuccessful (batch_geocode net queries)
          + batchFailed (batch_geocode net queries) = queries.length := by
  have hm := batch_geocode_eq_map net queries
  refine ⟨by rw [hm]; simp, hm, ?_, ?_, ?_⟩
  · intro i h1 h2
    have hg := List.get_of_eq hm ⟨i, h1⟩
    rw [hg]
    simp [List.get_eq_getElem, List.getElem_map]
  · intro qs1 q qs2
    rw [batch_geocode_eq_map, batch_geocode_eq_map, batch_geocode_eq_map]
    simp
  · have hle : (batch_geocode net queries).countP (fun r => r.success)
        ≤ (batch_geocode net queries).length := List.countP_le_length _
    have hlen : (batch_geocode net queries).length = queries.length := by
      rw [hm]; simp
    simp only [batchSuccessful, batchFailed]
    omega

/-- C10, witness: on the three-query batch from the spec with the network
down, the run still yields one result per query; the middle result is the
failure of the unresolvable query. -/
theorem c10_batch_geocode_witness :
    (batch_geocode netDown demoQueries).length = demoQueries.length ∧
      ((batch_geocode netDown demoQueries).get ⟨1, by decide⟩
        = geocode netDown (PyQuery.str "not-a-real-place-xyz")) ∧
      (geocode netDown (PyQuery.str "not-a-real-place-xyz")).success = false := by
  refine ⟨(c10_batch_geocode netDown demoQueries).1, ?_, by decide⟩
  exact (c10_batch_geocode netDown demoQueries).2.2.1 1 (by decide) (by decide)

/-- C7, witness: the table hit evaluated with the network fully down. -/
theorem c7_table_hit_witness :
    geocode netDown (PyQuery.str "238874") = ionOrchardResult :=
  c7_table_hit netDown
